import Mathlib

/-!
Formal model of the appointment-booking core of the Hospital-Management-App
repository, together with theorems settling the specified properties.

The model is a shallow embedding: Mongo documents become Lean structures,
collections become lists, and each controller or service function becomes a
pure Lean function threading the database state explicitly.  Randomness
(Math.random) is modelled by an explicit source of pre-drawn rolls, and the
clock (Date.now) by an explicit parameter in milliseconds.
-/

namespace HMS

/-- Mongo ObjectId, modelled as a string. -/
abbrev Oid := String

/-- Hexadecimal character test, used by the ObjectId format check. -/
def isHexChar (c : Char) : Bool :=
  c.isDigit || decide ('a' ≤ c ∧ c ≤ 'f') || decide ('A' ≤ c ∧ c ≤ 'F')

/-- Models mongoose.Types.ObjectId.isValid on its common form: a string of
24 hexadecimal characters. -/
def isValidObjectId (s : String) : Bool :=
  s.length == 24 && s.toList.all isHexChar

/-- The time-format check of validateAppointmentData in the appointment
controller, the regex matching ([01] digit or 2[0-3]) : [0-5] digit. -/
def timeFormatValid (s : String) : Bool :=
  match s.toList with
  | [h1, h2, c, m1, m2] =>
      (((h1 == '0' || h1 == '1') && h2.isDigit) ||
        (h1 == '2' && decide ('0' ≤ h2 ∧ h2 ≤ '3'))) &&
      c == ':' &&
      decide ('0' ≤ m1 ∧ m1 ≤ '5') && m2.isDigit
  | _ => false

/-- The status enum of the embedded appointment schema in model/Users.js. -/
inductive ApptStatus
  | scheduled
  | confirmed
  | completed
  | cancelled
  | noShow
  deriving DecidableEq, Repr

/-- Parse a raw status string against the schema enum; mongoose rejects any
other string when the user document is saved. -/
def statusOfString (s : String) : Option ApptStatus :=
  if s == "scheduled" then some .scheduled
  else if s == "confirmed" then some .confirmed
  else if s == "completed" then some .completed
  else if s == "cancelled" then some .cancelled
  else if s == "no-show" then some .noShow
  else none

/-- An AppointmentSlot document.  The field sid models the Mongo id; date is
the day-granularity timestamp produced by setHours(0,0,0,0). -/
structure Slot where
  sid : Nat
  doctor : Oid
  hospital : Oid
  date : Nat
  startTime : String
  endTime : String
  duration : Nat
  isAvailable : Bool
  isBooked : Bool
  bookedBy : Option Oid
  deriving DecidableEq, Repr

/-- An embedded appointment subdocument of a user, as in model/Users.js.
The field aid models the subdocument id; timestamps are in milliseconds. -/
structure Appointment where
  aid : Nat
  hospitalId : Oid
  hospitalName : String
  departmentId : Oid
  department : String
  doctorId : Oid
  doctorName : String
  appointmentDate : Nat
  appointmentTime : String
  location : String
  status : ApptStatus
  createdAt : Nat
  actualStartTime : Nat
  actualEndTime : Nat
  slotId : Option Nat
  prescriptionId : Option Nat
  notes : String
  deriving DecidableEq, Repr

/-- A user document, restricted to the fields the appointment core reads. -/
structure User where
  uid : Oid
  appointments : List Appointment
  deriving DecidableEq, Repr

/-- A doctor document, restricted to the fields selected by addAppointment.
appointmentDuration is optional; the code reads it as duration or 30. -/
structure Doctor where
  did : Oid
  name : String
  specialty : String
  appointmentDuration : Option Nat
  deriving DecidableEq, Repr

/-- A hospital document, restricted to the fields selected by addAppointment. -/
structure Hospital where
  hid : Oid
  name : String
  location : String
  deriving DecidableEq, Repr

/-- A medicine document from the read-only catalog. -/
structure Medicine where
  name : String
  genericName : String
  strengths : List String
  category : String
  isActive : Bool
  deriving DecidableEq, Repr

/-- A medication entry of a prescription. -/
structure Medication where
  name : String
  genericName : String
  dosage : String
  frequency : String
  duration : String
  category : String
  instructions : String
  deriving DecidableEq, Repr

/-- A prescription document from model/Prescription.js.  The field pid
models the Mongo id. -/
structure Prescription where
  pid : Nat
  appointmentId : Nat
  userId : Oid
  hospitalName : String
  department : String
  doctorName : String
  appointmentDate : Nat
  appointmentTime : String
  diagnosis : String
  medications : List Medication
  instructions : String
  followUpDate : Nat
  prescribedAt : Nat
  status : String
  deriving DecidableEq, Repr

/-- The persistent state: the collections the appointment core touches,
plus counters supplying fresh document ids. -/
structure DB where
  users : List User
  slots : List Slot
  prescriptions : List Prescription
  medicines : List Medicine
  doctors : List Doctor
  hospitals : List Hospital
  nextApptId : Nat
  nextPrescriptionId : Nat
  deriving DecidableEq, Repr

/-- User.findById. -/
def findUser (db : DB) (userId : Oid) : Option User :=
  db.users.find? (fun u => u.uid == userId)

/-- Persisting a mutated user document: user.save rewrites the document
identified by its id. -/
def updateUser (users : List User) (userId : Oid) (u1 : User) : List User :=
  users.map (fun u => if u.uid == userId then u1 else u)

/-- The availability filter of the AppointmentSlot.findOne query issued by
addAppointment: same doctor, hospital, day and start time, still available
and unbooked. -/
def slotMatches (doctorId hospitalId : Oid) (day : Nat) (time : String)
    (s : Slot) : Bool :=
  s.doctor == doctorId && s.hospital == hospitalId && s.date == day &&
  s.startTime == time && s.isAvailable && !s.isBooked

/-- The key identifying one bookable slot. -/
structure SlotKey where
  doctorId : Oid
  hospitalId : Oid
  day : Nat
  time : String
  deriving DecidableEq, Repr

/-- AppointmentSlot.findOne with the availability filter, returning the id
of the first matching free slot. -/
def findAvailable (slots : List Slot) (k : SlotKey) : Option Nat :=
  (slots.find? (slotMatches k.doctorId k.hospitalId k.day k.time)).map
    (fun s => s.sid)

/-- The field mutation addAppointment performs on the found slot before
calling save. -/
def bookSlotFields (claimant : Oid) (s : Slot) : Slot :=
  { s with isBooked := true, isAvailable := false, bookedBy := some claimant }

/-- The field update cancelAppointment sends through findByIdAndUpdate. -/
def releaseSlotFields (s : Slot) : Slot :=
  { s with isBooked := false, isAvailable := true, bookedBy := none }

/-- Persisting a mutated slot document: save rewrites the document
identified by its id. -/
def saveSlotById (slots : List Slot) (sid : Nat) (f : Slot → Slot) :
    List Slot :=
  slots.map (fun s => if s.sid == sid then f s else s)

namespace AppointmentController

/-- The appointmentDate field of a booking request, as seen by the
controller: absent or empty (falsy), a string the Date constructor cannot
parse, or a string parsing to a day value (the timestamp after
setHours(0,0,0,0)). -/
inductive DateInput
  | missing
  | invalid
  | valid (day : Nat)
  deriving DecidableEq, Repr

/-- The body of a booking request.  none models an absent or empty (falsy)
field. -/
structure BookingRequest where
  hospitalId : Option Oid
  departmentId : Option Oid
  doctorId : Option Oid
  appointmentDate : DateInput
  appointmentTime : Option String
  deriving DecidableEq, Repr

/-- The failure messages of validateAppointmentData. -/
inductive ValidationError
  | missingFields
  | invalidIdFormat
  | invalidDate
  | invalidTime
  deriving DecidableEq, Repr

/-- validateAppointmentData from the appointment controller: all five
fields required, the three ids must be well formed ObjectIds, the date must
parse, the time must match the HH:MM regex.  On success it yields the
destructured fields together with the parsed day. -/
def validateAppointmentData (r : BookingRequest) :
    Except ValidationError (Oid × Oid × Oid × Nat × String) :=
  match r.hospitalId, r.departmentId, r.doctorId, r.appointmentTime with
  | some hospitalId, some departmentId, some doctorId, some appointmentTime =>
    match r.appointmentDate with
    | .missing => .error .missingFields
    | .invalid =>
        if isValidObjectId hospitalId && isValidObjectId departmentId &&
            isValidObjectId doctorId then
          .error .invalidDate
        else .error .invalidIdFormat
    | .valid day =>
        if !(isValidObjectId hospitalId && isValidObjectId departmentId &&
            isValidObjectId doctorId) then
          .error .invalidIdFormat
        else if !timeFormatValid appointmentTime then .error .invalidTime
        else .ok (hospitalId, departmentId, doctorId, day, appointmentTime)
  | _, _, _, _ => .error .missingFields

/-- The error responses of addAppointment, in the order the code can
produce them. -/
inductive BookError
  | validation (e : ValidationError)
  | userNotFound
  | slotUnavailable
  | doctorOrHospitalNotFound
  deriving DecidableEq, Repr

/-- addAppointment from the appointment controller: validate, load the
user, find a free matching slot, load doctor and hospital, mark the slot
booked and save it, then push the new confirmed appointment onto the user
ledger and save the user.  The parameter now is Date.now in milliseconds. -/
def addAppointment (db : DB) (userId : Oid) (r : BookingRequest)
    (now : Nat) : Except BookError (DB × Appointment) :=
  match validateAppointmentData r with
  | .error e => .error (.validation e)
  | .ok (hospitalId, departmentId, doctorId, day, appointmentTime) =>
    match findUser db userId with
    | none => .error .userNotFound
    | some user =>
      match db.slots.find?
          (slotMatches doctorId hospitalId day appointmentTime) with
      | none => .error .slotUnavailable
      | some availableSlot =>
        match db.doctors.find? (fun d => d.did == doctorId),
              db.hospitals.find? (fun h => h.hid == hospitalId) with
        | some doctor, some hospital =>
          let slots1 :=
            saveSlotById db.slots availableSlot.sid (bookSlotFields userId)
          let duration :=
            match doctor.appointmentDuration with
            | none => 30
            | some 0 => 30
            | some d => d
          let newAppointment : Appointment :=
            { aid := db.nextApptId
              hospitalId := hospitalId
              hospitalName := hospital.name
              departmentId := departmentId
              department := doctor.specialty
              doctorId := doctorId
              doctorName := doctor.name
              appointmentDate := day
              appointmentTime := appointmentTime
              location := hospital.location
              status := .confirmed
              createdAt := now
              actualStartTime := now
              actualEndTime := now + duration * 60000
              slotId := some availableSlot.sid
              prescriptionId := none
              notes := "" }
          let user1 :=
            { user with appointments := user.appointments ++ [newAppointment] }
          .ok ({ db with
                  slots := slots1
                  users := updateUser db.users userId user1
                  nextApptId := db.nextApptId + 1 },
               newAppointment)
        | _, _ => .error .doctorOrHospitalNotFound

/-- The error responses of cancelAppointment. -/
inductive CancelError
  | invalidId
  | userNotFound
  | apptNotFound
  | alreadyCancelled
  deriving DecidableEq, Repr

/-- cancelAppointment from the appointment controller.  The route
parameter is modelled as Option Nat: none stands for a string rejected by
the ObjectId format check.  An appointment that is already cancelled is
reported as an error; otherwise the referenced slot, when present, is
released through findByIdAndUpdate and the status is set to cancelled. -/
def cancelAppointment (db : DB) (userId : Oid) (apptIdInput : Option Nat) :
    Except CancelError DB :=
  match apptIdInput with
  | none => .error .invalidId
  | some appointmentId =>
    match findUser db userId with
    | none => .error .userNotFound
    | some user =>
      match user.appointments.find? (fun a => a.aid == appointmentId) with
      | none => .error .apptNotFound
      | some appointment =>
        if appointment.status = ApptStatus.cancelled then
          .error .alreadyCancelled
        else
          let slots1 :=
            match appointment.slotId with
            | some sid => saveSlotById db.slots sid releaseSlotFields
            | none => db.slots
          let user1 :=
            { user with appointments := user.appointments.map (fun a =>
                if a.aid == appointmentId then
                  { a with status := ApptStatus.cancelled }
                else a) }
          .ok { db with
                  slots := slots1
                  users := updateUser db.users userId user1 }

/-- The body of a PATCH update request.  The extra field carries the keys
outside status and notes, which the allowedUpdates filter of the code
drops; the model therefore never reads it. -/
structure UpdateRequest where
  status : Option String
  notes : Option String
  extra : List (String × String)
  deriving DecidableEq, Repr

/-- The error responses of updateAppointment.  invalidStatus models the
mongoose enum validation rejecting the save, so nothing is persisted. -/
inductive UpdateError
  | invalidId
  | noValidFields
  | userNotFound
  | apptNotFound
  | invalidStatus
  deriving DecidableEq, Repr

/-- updateAppointment from the appointment controller: filter the body
down to status and notes, fail when neither is present, look up user and
appointment, assign the two fields and save the user.  A status string
outside the schema enum makes the save fail, persisting nothing. -/
def updateAppointment (db : DB) (userId : Oid) (apptIdInput : Option Nat)
    (r : UpdateRequest) : Except UpdateError (DB × Appointment) :=
  match apptIdInput with
  | none => .error .invalidId
  | some appointmentId =>
    if r.status.isNone && r.notes.isNone then .error .noValidFields
    else
      match findUser db userId with
      | none => .error .userNotFound
      | some user =>
        match user.appointments.find? (fun a => a.aid == appointmentId) with
        | none => .error .apptNotFound
        | some appointment =>
          let statusResult : Except UpdateError ApptStatus :=
            match r.status with
            | none => .ok appointment.status
            | some s =>
              match statusOfString s with
              | some st => .ok st
              | none => .error .invalidStatus
          match statusResult with
          | .error e => .error e
          | .ok st =>
            let appointment1 :=
              { appointment with
                  status := st
                  notes := r.notes.getD appointment.notes }
            let user1 :=
              { user with appointments := user.appointments.map (fun a =>
                  if a.aid == appointmentId then appointment1 else a) }
            .ok ({ db with users := updateUser db.users userId user1 },
                 appointment1)

end AppointmentController

/-- Milliseconds in one day. -/
def msPerDay : Nat := 86400000

/-- An explicit source for the values the code draws from Math.random.
One structure gathers every roll one prescription generation consumes; the
per-medicine rolls are indexed by the position of the medicine in the
selection.  The constraints the code obtains by scaling Math.random are
recovered at each use site by taking the roll modulo the range size. -/
structure Rand where
  countRoll : Nat
  shuffleRoll : Nat
  diagRoll : Nat
  strengthRoll : Nat → Nat
  freqRoll : Nat → Nat
  medFreqRoll : Nat → Nat
  durationRoll : Nat → Nat
  instrRoll : Nat
  followUpRoll : Nat

/-- The random comparator shuffle (sort by 0.5 - Math.random()) produces
some permutation of the list; the model realises the drawn permutation as
the rotation selected by the shuffle roll. -/
def shuffleBy (seed : Nat) (l : List α) : List α :=
  l.drop (seed % (l.length + 1)) ++ l.take (seed % (l.length + 1))

/-- The frequency labels of generateDosage, shared verbatim by both
generation paths. -/
def dosageFrequencies : List String :=
  ["once daily", "twice daily", "three times daily", "four times daily",
   "as needed"]

/-- generateDosage: a random strength from the list joined with a random
frequency label, or a fixed text when the strength list is empty.  Both
generation paths contain this function verbatim. -/
def generateDosage (strengths : List String) (sRoll fRoll : Nat) : String :=
  if strengths.isEmpty then "As directed"
  else
    (strengths.getD (sRoll % strengths.length) "") ++ " " ++
      (dosageFrequencies.getD (fRoll % dosageFrequencies.length) "")

/-- The category keyed instruction table of generateMedicationInstructions,
identical in both generation paths. -/
def medicationInstructionTable : List (String × String) :=
  [("antibiotic", "Complete the full course even if you feel better"),
   ("analgesic", "Take with food if stomach upset occurs"),
   ("anti-inflammatory", "Take with food or milk to avoid stomach irritation"),
   ("antihistamine", "May cause drowsiness - avoid driving"),
   ("cardiovascular", "Take at the same time every day"),
   ("gastrointestinal", "Take 30-60 minutes before meals"),
   ("respiratory", "Rinse mouth after using inhaler"),
   ("endocrine", "Take with food to reduce stomach upset"),
   ("vitamin", "Take with food for better absorption")]

/-- generateMedicationInstructions: table lookup by category with a
generic fallback. -/
def generateMedicationInstructions (category : String) : String :=
  match medicationInstructionTable.find? (fun p => p.1 == category) with
  | some p => p.2
  | none => "Take as directed by your physician"

/-- Selection of a department diagnosis list with fallback to General, the
shared shape of both generateDiagnosis copies. -/
def pickDiagnosis (table : List (String × List String))
    (general : List String) (department : String) (roll : Nat) : String :=
  let deptDiagnoses :=
    match table.find? (fun p => p.1 == department) with
    | some p => p.2
    | none => general
  deptDiagnoses.getD (roll % deptDiagnoses.length) ""

namespace AppointmentService

/-- The General fallback list of the diagnosis table in
services/appointmentService.js. -/
def generalDiagnoses : List String :=
  ["General medical condition", "Follow-up examination", "Routine checkup",
   "Health maintenance"]

/-- The department keyed diagnosis table of generateDiagnosis in
services/appointmentService.js. -/
def diagnosesTable : List (String × List String) :=
  [("Cardiology",
    ["Hypertension", "Coronary artery disease", "Arrhythmia",
     "Heart failure", "Chest pain"]),
   ("Dermatology",
    ["Acne vulgaris", "Eczema", "Psoriasis", "Contact dermatitis",
     "Skin infection"]),
   ("Neurology",
    ["Migraine", "Tension headache", "Neurophy", "Insomnia",
     "Anxiety disorder"]),
   ("Orthopedics",
    ["Osteoarthritis", "Back pain", "Sprain", "Tendinitis",
     "Fracture follow-up"]),
   ("Pediatrics",
    ["Upper respiratory infection", "Ear infection", "Viral illness",
     "Allergic rhinitis", "Asthma"]),
   ("Oncology",
    ["Follow-up care", "Symptom management", "Treatment monitoring",
     "Pain management"]),
   ("Gynecology",
    ["Menstrual disorder", "UTI", "Vaginal infection",
     "Contraception management", "Pregnancy follow-up"]),
   ("Psychiatry",
    ["Anxiety disorder", "Depression", "Insomnia", "Stress management",
     "Mood disorder"]),
   ("General", generalDiagnoses)]

/-- generateDiagnosis from services/appointmentService.js. -/
def generateDiagnosis (department : String) (roll : Nat) : String :=
  pickDiagnosis diagnosesTable generalDiagnoses department roll

/-- The single failure generatePrescription can raise on its own. -/
inductive GenError
  | noMedicines
  deriving DecidableEq, Repr

/-- generatePrescription from services/appointmentService.js: return the
existing prescription for the appointment when there is one; otherwise
draw one to three active medicines, synthesize the document with a fixed
frequency and duration per medication, a fixed general instruction and a
follow-up of exactly seven days from now, and insert it. -/
def generatePrescription (rand : Rand) (now : Nat) (db : DB)
    (appointment : Appointment) (userId : Oid) :
    Except GenError (DB × Prescription) :=
  match db.prescriptions.find?
      (fun p => p.appointmentId == appointment.aid) with
  | some existingPrescription => .ok (db, existingPrescription)
  | none =>
    let medicineCount := rand.countRoll % 3 + 1
    let allMedicines := db.medicines.filter (fun m => m.isActive)
    if allMedicines.isEmpty then .error .noMedicines
    else
      let selectedMedicines :=
        (shuffleBy rand.shuffleRoll allMedicines).take medicineCount
      let medications := selectedMedicines.enum.map (fun im =>
        { name := im.2.name
          genericName := im.2.genericName
          dosage := generateDosage im.2.strengths (rand.strengthRoll im.1)
            (rand.freqRoll im.1)
          frequency := "As prescribed"
          duration := "7 days"
          category := im.2.category
          instructions := generateMedicationInstructions im.2.category
          : Medication })
      let prescription : Prescription :=
        { pid := db.nextPrescriptionId
          appointmentId := appointment.aid
          userId := userId
          hospitalName := appointment.hospitalName
          department := appointment.department
          doctorName := appointment.doctorName
          appointmentDate := appointment.appointmentDate
          appointmentTime := appointment.appointmentTime
          diagnosis := generateDiagnosis appointment.department rand.diagRoll
          medications := medications
          instructions :=
            "Complete the course and follow up if symptoms persist"
          followUpDate := now + 7 * 24 * 60 * 60 * 1000
          prescribedAt := now
          status := "active" }
      .ok ({ db with
              prescriptions := db.prescriptions ++ [prescription]
              nextPrescriptionId := db.nextPrescriptionId + 1 },
           prescription)

/-- The inner loop of expireAppointments over one user ledger: every
confirmed appointment is marked completed, prescription generation is
attempted, a success attaches the prescription id and a failure is logged
and skipped.  Returns the threaded database, the rewritten ledger and the
number of expired appointments. -/
def sweepAppointments (rand : Rand) (now : Nat) (userId : Oid) :
    DB → List Appointment → DB × List Appointment × Nat
  | db, [] => (db, [], 0)
  | db, appointment :: rest =>
    if appointment.status = ApptStatus.confirmed then
      let completed := { appointment with status := ApptStatus.completed }
      let next :=
        match generatePrescription rand now db completed userId with
        | .ok (db1, prescription) =>
            (db1, { completed with prescriptionId := some prescription.pid })
        | .error _ => (db, completed)
      let tail := sweepAppointments rand now userId next.1 rest
      (tail.1, next.2 :: tail.2.1, tail.2.2 + 1)
    else
      let tail := sweepAppointments rand now userId db rest
      (tail.1, appointment :: tail.2.1, tail.2.2)

/-- The query filter of expireAppointments: users having at least one
confirmed appointment. -/
def hasConfirmed (u : User) : Bool :=
  u.appointments.any (fun a => a.status == ApptStatus.confirmed)

/-- The outer loop of expireAppointments over the queried users.  Each
processed user document is saved back in place; the iteration order is the
stored order. -/
def runSweep (rand : Rand) (now : Nat) :
    List User → DB → List User × DB × Nat
  | [], db => ([], db, 0)
  | u :: rest, db =>
    if hasConfirmed u then
      let step := sweepAppointments rand now u.uid db u.appointments
      let tail := runSweep rand now rest step.1
      ({ u with appointments := step.2.1 } :: tail.1, tail.2.1,
       step.2.2 + tail.2.2)
    else
      let tail := runSweep rand now rest db
      (u :: tail.1, tail.2.1, tail.2.2)

/-- expireAppointments from services/appointmentService.js, returning the
database after the sweep and the count of expired appointments. -/
def expireAppointments (rand : Rand) (now : Nat) (db : DB) : DB × Nat :=
  let r := runSweep rand now db.users db
  ({ r.2.1 with users := r.1 }, r.2.2)

/-- The outer loop again, with user.save allowed to fail: saveFails names
the user documents whose save raises a StorageError.  The exception
propagates out of the loop, so the failing user keeps its stored document
and the remaining users are not visited; prescriptions inserted before the
failing save persist.  The error value is the database at the moment the
exception escapes. -/
def runSweepFallible (rand : Rand) (now : Nat) (saveFails : Oid → Bool) :
    List User → DB → Except (List User × DB) (List User × DB × Nat)
  | [], db => .ok ([], db, 0)
  | u :: rest, db =>
    if hasConfirmed u then
      let step := sweepAppointments rand now u.uid db u.appointments
      if saveFails u.uid then .error (u :: rest, step.1)
      else
        match runSweepFallible rand now saveFails rest step.1 with
        | .ok (us, db2, c2) =>
            .ok ({ u with appointments := step.2.1 } :: us, db2,
                 step.2.2 + c2)
        | .error (us, db2) =>
            .error ({ u with appointments := step.2.1 } :: us, db2)
    else
      match runSweepFallible rand now saveFails rest db with
      | .ok (us, db2, c2) => .ok (u :: us, db2, c2)
      | .error (us, db2) => .error (u :: us, db2)

/-- expireAppointments with fallible saves: on a save failure the function
rethrows, surfacing the database state left behind. -/
def expireAppointmentsFallible (rand : Rand) (now : Nat)
    (saveFails : Oid → Bool) (db : DB) : Except DB (DB × Nat) :=
  match runSweepFallible rand now saveFails db.users db with
  | .ok (us, db1, c) => .ok ({ db1 with users := us }, c)
  | .error (us, db1) => .error { db1 with users := us }

end AppointmentService

namespace PrescriptionController

/-- The General fallback list of the diagnosis table in the prescription
controller. -/
def generalDiagnoses : List String :=
  ["General medical condition", "Follow-up examination", "Routine checkup",
   "Health maintenance"]

/-- The department keyed diagnosis table of generateDiagnosis in the
prescription controller; it differs from the service copy in one
Neurology entry. -/
def diagnosesTable : List (String × List String) :=
  [("Cardiology",
    ["Hypertension", "Coronary artery disease", "Arrhythmia",
     "Heart failure", "Chest pain"]),
   ("Dermatology",
    ["Acne vulgaris", "Eczema", "Psoriasis", "Contact dermatitis",
     "Skin infection"]),
   ("Neurology",
    ["Migraine", "Tension headache", "Neuropathy", "Insomnia",
     "Anxiety disorder"]),
   ("Orthopedics",
    ["Osteoarthritis", "Back pain", "Sprain", "Tendinitis",
     "Fracture follow-up"]),
   ("Pediatrics",
    ["Upper respiratory infection", "Ear infection", "Viral illness",
     "Allergic rhinitis", "Asthma"]),
   ("Oncology",
    ["Follow-up care", "Symptom management", "Treatment monitoring",
     "Pain management"]),
   ("Gynecology",
    ["Menstrual disorder", "UTI", "Vaginal infection",
     "Contraception management", "Pregnancy follow-up"]),
   ("Psychiatry",
    ["Anxiety disorder", "Depression", "Insomnia", "Stress management",
     "Mood disorder"]),
   ("General", generalDiagnoses)]

/-- generateDiagnosis from the prescription controller. -/
def generateDiagnosis (department : String) (roll : Nat) : String :=
  pickDiagnosis diagnosesTable generalDiagnoses department roll

/-- The frequency instruction list of generateFrequency. -/
def frequencyTexts : List String :=
  ["Take with food", "Take on empty stomach", "Take with plenty of water",
   "Take at bedtime", "Take in the morning", "Take with meals"]

/-- generateFrequency from the prescription controller. -/
def generateFrequency (roll : Nat) : String :=
  frequencyTexts.getD (roll % frequencyTexts.length) ""

/-- The duration instruction list of generateDuration. -/
def durationTexts : List String :=
  ["7 days", "10 days", "14 days", "30 days", "As needed",
   "Until finished", "90 days"]

/-- generateDuration from the prescription controller. -/
def generateDuration (roll : Nat) : String :=
  durationTexts.getD (roll % durationTexts.length) ""

/-- The general instruction list of generateInstructions. -/
def instructionTexts : List String :=
  ["Complete the full course of medication", "Return if symptoms worsen",
   "Avoid alcohol while taking this medication",
   "May cause drowsiness - avoid driving", "Take with plenty of water",
   "Store at room temperature away from moisture",
   "Follow up if no improvement in 3 days", "Maintain adequate hydration",
   "Avoid prolonged sun exposure"]

/-- generateInstructions from the prescription controller. -/
def generateInstructions (roll : Nat) : String :=
  instructionTexts.getD (roll % instructionTexts.length) ""

/-- The offset set generateFollowUpDate draws from. -/
def followUpDays : List Nat := [7, 14, 30, 60, 90]

/-- generateFollowUpDate from the prescription controller: the current
time advanced by a randomly chosen number of days from followUpDays.  The
calendar day addition of setDate is modelled as whole days in
milliseconds. -/
def generateFollowUpDate (now : Nat) (roll : Nat) : Nat :=
  now + followUpDays.getD (roll % followUpDays.length) 0 * msPerDay

/-- The error responses of generatePrescriptionForAppointment. -/
inductive ManualGenError
  | invalidId
  | userNotFound
  | apptNotFound
  | notEligible
  | alreadyExists
  | noMedicines
  deriving DecidableEq, Repr

/-- generatePrescriptionForAppointment, the manual endpoint in the
prescription controller: after the id, user, appointment and eligibility
checks it refuses when a prescription for the appointment already exists;
otherwise it draws one to three active medicines, synthesizes the
prescription with randomized frequency, duration, general instructions and
follow-up date, saves it, then sets the appointment prescription id,
marks the appointment completed and saves the user. -/
def generatePrescriptionForAppointment (rand : Rand) (now : Nat) (db : DB)
    (userId : Oid) (apptIdInput : Option Nat) :
    Except ManualGenError (DB × Prescription) :=
  match apptIdInput with
  | none => .error .invalidId
  | some appointmentId =>
    match findUser db userId with
    | none => .error .userNotFound
    | some user =>
      match user.appointments.find? (fun a => a.aid == appointmentId) with
      | none => .error .apptNotFound
      | some appointment =>
        if appointment.status ≠ ApptStatus.confirmed ∧
            appointment.status ≠ ApptStatus.completed then
          .error .notEligible
        else
          match db.prescriptions.find?
              (fun p => p.appointmentId == appointmentId) with
          | some _ => .error .alreadyExists
          | none =>
            let medicineCount := rand.countRoll % 3 + 1
            let allMedicines := db.medicines.filter (fun m => m.isActive)
            if allMedicines.isEmpty then .error .noMedicines
            else
              let selectedMedicines :=
                (shuffleBy rand.shuffleRoll allMedicines).take medicineCount
              let medications := selectedMedicines.enum.map (fun im =>
                { name := im.2.name
                  genericName := im.2.genericName
                  dosage := generateDosage im.2.strengths
                    (rand.strengthRoll im.1) (rand.freqRoll im.1)
                  frequency := generateFrequency (rand.medFreqRoll im.1)
                  duration := generateDuration (rand.durationRoll im.1)
                  category := im.2.category
                  instructions :=
                    generateMedicationInstructions im.2.category
                  : Medication })
              let prescription : Prescription :=
                { pid := db.nextPrescriptionId
                  appointmentId := appointmentId
                  userId := userId
                  hospitalName := appointment.hospitalName
                  department := appointment.department
                  doctorName := appointment.doctorName
                  appointmentDate := appointment.appointmentDate
                  appointmentTime := appointment.appointmentTime
                  diagnosis := generateDiagnosis appointment.department
                    rand.diagRoll
                  medications := medications
                  instructions := generateInstructions rand.instrRoll
                  followUpDate := generateFollowUpDate now rand.followUpRoll
                  prescribedAt := now
                  status := "active" }
              let appointment1 :=
                { appointment with
                    prescriptionId := some prescription.pid
                    status := ApptStatus.completed }
              let user1 :=
                { user with appointments := user.appointments.map (fun a =>
                    if a.aid == appointmentId then appointment1 else a) }
              .ok ({ db with
                      prescriptions := db.prescriptions ++ [prescription]
                      nextPrescriptionId := db.nextPrescriptionId + 1
                      users := updateUser db.users userId user1 },
                   prescription)

end PrescriptionController

namespace SeedData

/-- Two digit zero padding of hour and minute values. -/
def pad2 (n : Nat) : String :=
  if n < 10 then "0" ++ toString n else toString n

/-- One generated seed slot: within working hours 9 to 17, never booked,
always available, no claimant. -/
def makeSeedSlot (doctorId hospitalId : Oid) (day : Nat)
    (appointmentDuration : Nat) (hour minute : Nat) : Slot :=
  let endMinute := minute + appointmentDuration
  let endHourTime := if endMinute ≥ 60 then hour + 1 else hour
  let endMinuteTime := endMinute % 60
  { sid := 0
    doctor := doctorId
    hospital := hospitalId
    date := day
    startTime := pad2 hour ++ ":" ++ pad2 minute
    endTime := pad2 endHourTime ++ ":" ++ pad2 endMinuteTime
    duration := appointmentDuration
    isAvailable := true
    isBooked := false
    bookedBy := none }

/-- The minute starts of one working hour: 0, d, 2d, ... below 60, the
inner loop of the slot generation in scripts/seedData.js. -/
def minuteStarts (d : Nat) : List Nat :=
  if d = 0 then [] else (List.range ((60 + d - 1) / d)).map (fun i => i * d)

/-- The slot generation loop of scripts/seedData.js for one doctor: thirty
days, hours nine through sixteen, minutes stepped by the appointment
duration of the doctor (zero and absence both fall back to thirty).  The
document ids insertMany assigns are immaterial to the claims and left at
zero. -/
def seedSlotsForDoctor (doctor : Doctor) (hospitalId : Oid)
    (startDay : Nat) : List Slot :=
  let appointmentDuration :=
    match doctor.appointmentDuration with
    | none => 30
    | some 0 => 30
    | some d => d
  (List.range 30).flatMap (fun day =>
    (List.range' 9 8).flatMap (fun hour =>
      (minuteStarts appointmentDuration).map (fun minute =>
        makeSeedSlot doctor.did hospitalId (startDay + day * msPerDay)
          appointmentDuration hour minute)))

end SeedData

namespace SlotClaim

/-- The control state of one in-flight claim attempt.  The await between
the findOne read and the save write of addAppointment splits the attempt
into two steps; checked records the outcome of the read. -/
inductive ClaimPhase
  | start
  | checked (found : Option Nat)
  | finished (success : Bool)
  deriving DecidableEq, Repr

/-- One claim attempt: the claimant and its control state. -/
structure ClaimProc where
  claimant : Oid
  phase : ClaimPhase
  deriving DecidableEq, Repr

/-- One scheduler step running the next pending phase of attempt i: the
read performs the findOne availability query, the write performs the
unconditional save of the booked fields (success) or returns the slot
unavailable failure when the read found nothing. -/
def stepClaim (k : SlotKey) (st : List Slot × List ClaimProc) (i : Nat) :
    List Slot × List ClaimProc :=
  match st.2.get? i with
  | none => st
  | some proc =>
    match proc.phase with
    | .start =>
        (st.1, st.2.set i { proc with phase := .checked (findAvailable st.1 k) })
    | .checked none =>
        (st.1, st.2.set i { proc with phase := .finished false })
    | .checked (some sid) =>
        (saveSlotById st.1 sid (bookSlotFields proc.claimant),
         st.2.set i { proc with phase := .finished true })
    | .finished _ => st

/-- Run a whole interleaving: the schedule lists which attempt moves at
each step. -/
def runSchedule (k : SlotKey) (slots : List Slot) (procs : List ClaimProc)
    (schedule : List Nat) : List Slot × List ClaimProc :=
  schedule.foldl (stepClaim k) (slots, procs)

/-- One claim attempt run to completion with no interleaving: the read
immediately followed by the write, the serialized execution of the
check-then-save pair in addAppointment. -/
def claimSlotSeq (k : SlotKey) (slots : List Slot) (claimant : Oid) :
    List Slot × Bool :=
  match findAvailable slots k with
  | none => (slots, false)
  | some sid => (saveSlotById slots sid (bookSlotFields claimant), true)

/-- A sequence of claim attempts on the same key, each serialized, with
the outcome of each attempt: true for a booked slot, false for the slot
unavailable failure. -/
def claimAll (k : SlotKey) : List Slot → List Oid → List Slot × List Bool
  | slots, [] => (slots, [])
  | slots, c :: cs =>
    let first := claimSlotSeq k slots c
    let rest := claimAll k first.1 cs
    (rest.1, first.2 :: rest.2)

/-- The number of free slots matching a key. -/
def countFree (k : SlotKey) (slots : List Slot) : Nat :=
  slots.countP (slotMatches k.doctorId k.hospitalId k.day k.time)

end SlotClaim

/-! Concrete fixture data used by counterexamples and witnesses. -/

/-- A well formed hospital ObjectId. -/
def oidA : Oid := "aaaaaaaaaaaaaaaaaaaaaaaa"

/-- A well formed patient ObjectId. -/
def oidB : Oid := "bbbbbbbbbbbbbbbbbbbbbbbb"

/-- A well formed department ObjectId, doubling as a second patient. -/
def oidC : Oid := "cccccccccccccccccccccccc"

/-- A well formed doctor ObjectId. -/
def oidD : Oid := "dddddddddddddddddddddddd"

/-- The slot key the fixtures book. -/
def exKey : SlotKey :=
  { doctorId := oidD, hospitalId := oidA, day := 20000, time := "09:00" }

/-- A free fixture slot matching exKey. -/
def exFreeSlot : Slot :=
  { sid := 1, doctor := oidD, hospital := oidA, date := 20000,
    startTime := "09:00", endTime := "09:30", duration := 30,
    isAvailable := true, isBooked := false, bookedBy := none }

/-- A fixture appointment with a chosen status and no slot reference. -/
def exAppt (st : ApptStatus) : Appointment :=
  { aid := 0, hospitalId := oidA, hospitalName := "General Hospital",
    departmentId := oidC, department := "Cardiology", doctorId := oidD,
    doctorName := "Dr House", appointmentDate := 20000,
    appointmentTime := "09:00", location := "Main St", status := st,
    createdAt := 0, actualStartTime := 0, actualEndTime := 1800000,
    slotId := none, prescriptionId := none, notes := "" }

/-- A fixture database holding one patient whose ledger is the given
list, with empty collections otherwise. -/
def oneUserDB (appts : List Appointment) : DB :=
  { users := [{ uid := oidB, appointments := appts }], slots := [],
    prescriptions := [], medicines := [], doctors := [], hospitals := [],
    nextApptId := 1, nextPrescriptionId := 0 }

/-- A fixture doctor matching oidD. -/
def exDoctor : Doctor :=
  { did := oidD, name := "Dr House", specialty := "Cardiology",
    appointmentDuration := some 30 }

/-- A fixture hospital matching oidA. -/
def exHospital : Hospital :=
  { hid := oidA, name := "General Hospital", location := "Main St" }

/-- A fixture booking request for the free fixture slot. -/
def exReq : AppointmentController.BookingRequest :=
  { hospitalId := some oidA, departmentId := some oidC,
    doctorId := some oidD,
    appointmentDate := AppointmentController.DateInput.valid 20000,
    appointmentTime := some "09:00" }

/-- A fixture database ready for booking: one patient with an empty
ledger, the free fixture slot, the fixture doctor and hospital. -/
def exBookDB : DB :=
  { users := [{ uid := oidB, appointments := [] }], slots := [exFreeSlot],
    prescriptions := [], medicines := [], doctors := [exDoctor],
    hospitals := [exHospital], nextApptId := 0, nextPrescriptionId := 0 }

/-- The appointment the fixture booking creates. -/
def exBookedAppt : Appointment :=
  { exAppt ApptStatus.confirmed with
      createdAt := 5000, actualStartTime := 5000,
      actualEndTime := 5000 + 30 * 60000, slotId := some 1 }

/-- The database after the fixture booking. -/
def exBookedDB : DB :=
  { exBookDB with
      slots := [bookSlotFields oidB exFreeSlot]
      users := [{ uid := oidB, appointments := [exBookedAppt] }]
      nextApptId := 1 }

/-- The database after cancelling the fixture booking. -/
def exCancelledDB : DB :=
  { exBookedDB with
      slots := [releaseSlotFields (bookSlotFields oidB exFreeSlot)]
      users := [{ uid := oidB,
                  appointments := [{ exBookedAppt with
                                     status := ApptStatus.cancelled }] }] }

/-- A fixture source of random rolls. -/
def rand0 : Rand :=
  { countRoll := 0, shuffleRoll := 0, diagRoll := 0,
    strengthRoll := fun _ => 0, freqRoll := fun _ => 0,
    medFreqRoll := fun _ => 0, durationRoll := fun _ => 0,
    instrRoll := 0, followUpRoll := 0 }

/-- A fixture active medicine. -/
def exMedicine : Medicine :=
  { name := "Aspirin", genericName := "acetylsalicylic acid",
    strengths := ["100mg"], category := "analgesic", isActive := true }

/-- A database with one completed appointment and one active medicine,
ready for prescription generation. -/
def c6db : DB :=
  { oneUserDB [exAppt ApptStatus.completed] with medicines := [exMedicine] }

/-- The prescription the service generator creates from c6db under rand0
at time 100. -/
def c6p : Prescription :=
  { pid := 0, appointmentId := 0, userId := oidB,
    hospitalName := "General Hospital", department := "Cardiology",
    doctorName := "Dr House", appointmentDate := 20000,
    appointmentTime := "09:00", diagnosis := "Hypertension",
    medications :=
      [{ name := "Aspirin", genericName := "acetylsalicylic acid",
         dosage := "100mg once daily", frequency := "As prescribed",
         duration := "7 days", category := "analgesic",
         instructions := "Take with food if stomach upset occurs" }],
    instructions := "Complete the course and follow up if symptoms persist",
    followUpDate := 100 + 7 * 24 * 60 * 60 * 1000, prescribedAt := 100,
    status := "active" }

/-- The database after that generation. -/
def c6db1 : DB :=
  { c6db with prescriptions := [c6p], nextPrescriptionId := 1 }

/-- The prescription the manual endpoint creates from c6db under rand0
at time 100. -/
def c9p : Prescription :=
  { pid := 0, appointmentId := 0, userId := oidB,
    hospitalName := "General Hospital", department := "Cardiology",
    doctorName := "Dr House", appointmentDate := 20000,
    appointmentTime := "09:00", diagnosis := "Hypertension",
    medications :=
      [{ name := "Aspirin", genericName := "acetylsalicylic acid",
         dosage := "100mg once daily", frequency := "Take with food",
         duration := "7 days", category := "analgesic",
         instructions := "Take with food if stomach upset occurs" }],
    instructions := "Complete the full course of medication",
    followUpDate := 100 + 7 * msPerDay, prescribedAt := 100,
    status := "active" }

/-- The database after that manual generation. -/
def c9db2 : DB :=
  { c6db with
      users := [{ uid := oidB,
                  appointments := [{ exAppt ApptStatus.completed with
                                     prescriptionId := some 0 }] }]
      prescriptions := [c9p]
      nextPrescriptionId := 1 }

/-- A database with two patients who each hold one confirmed appointment
and no medicines, for the sweep failure scenarios. -/
def c8db : DB :=
  { users := [{ uid := oidB, appointments := [exAppt ApptStatus.confirmed] },
              { uid := oidC,
                appointments := [{ exAppt ApptStatus.confirmed with
                  aid := 1 }] }],
    slots := [], prescriptions := [], medicines := [], doctors := [],
    hospitals := [], nextApptId := 2, nextPrescriptionId := 0 }

/-- The successful result shape of updateAppointment: the one matching
appointment of the one matching user is replaced and everything else in
the database is carried over unchanged. -/
def updateResult (db : DB) (userId : Oid) (aid : Nat) (user : User)
    (appt1 : Appointment) : DB × Appointment :=
  let user1 : User :=
    { user with appointments := user.appointments.map (fun a =>
        if a.aid == aid then appt1 else a) }
  ({ db with users := updateUser db.users userId user1 }, appt1)

/-- The slot coherence invariant of the specification: a slot is either
free with no claimant or booked, unavailable and claimed. -/
def coherent (s : Slot) : Prop :=
  (s.isBooked = true ↔ s.bookedBy ≠ none) ∧
  (s.isBooked = true ↔ s.isAvailable = false)

instance (s : Slot) : Decidable (coherent s) := by
  unfold coherent
  infer_instance

/-- The per-appointment contract of one sweep run: a confirmed
appointment becomes completed, with the prescription reference either
left alone or pointing at some prescription; any other appointment is
untouched. -/
def apptSweepSpec (old new : Appointment) : Prop :=
  if old.status = ApptStatus.confirmed then
    new = { old with
              status := ApptStatus.completed
              prescriptionId := new.prescriptionId } ∧
      (new.prescriptionId = old.prescriptionId ∨
        ∃ n, new.prescriptionId = some n)
  else new = old

/-! Helper lemmas about the slot store. -/

/-- A slot that has just been written by the booking save never matches
the availability filter again. -/
theorem slotMatches_bookSlotFields (d h : Oid) (day : Nat) (t : String)
    (c : Oid) (s : Slot) :
    slotMatches d h day t (bookSlotFields c s) = false := by
  simp [slotMatches, bookSlotFields]

namespace SlotClaim

/-- When no free matching slot remains, a serialized claim attempt fails
and leaves the store unchanged. -/
theorem claimSlotSeq_of_countFree_zero (k : SlotKey) (slots : List Slot)
    (c : Oid) (h : countFree k slots = 0) :
    claimSlotSeq k slots c = (slots, false) := by
  have hnone :
      slots.find? (slotMatches k.doctorId k.hospitalId k.day k.time)
        = none := by
    rw [List.find?_eq_none]
    intro x hx hpx
    have := List.countP_eq_zero.mp h x hx
    simp [hpx] at this
  simp [claimSlotSeq, findAvailable, hnone]

/-- When exactly one free matching slot exists, a serialized claim attempt
succeeds and afterwards no free matching slot remains. -/
theorem claimSlotSeq_of_countFree_one (k : SlotKey) (slots : List Slot)
    (c : Oid) (h : countFree k slots = 1) :
    (claimSlotSeq k slots c).2 = true ∧
      countFree k (claimSlotSeq k slots c).1 = 0 := by
  set p := slotMatches k.doctorId k.hospitalId k.day k.time with hp
  have hfilter : (slots.filter p).length = 1 := by
    have := h
    rw [countFree, List.countP_eq_length_filter] at this
    exact this
  obtain ⟨z, hz⟩ := List.length_eq_one.mp hfilter
  have huniq : ∀ x ∈ slots, p x = true → x = z := by
    intro x hx hpx
    have : x ∈ slots.filter p := List.mem_filter.mpr ⟨hx, hpx⟩
    rw [hz] at this
    simpa using this
  have hsome : ∃ s0, slots.find? p = some s0 := by
    have hzmem : z ∈ slots.filter p := by rw [hz]; simp
    have hzs := List.mem_filter.mp hzmem
    have : (slots.find? p).isSome := by
      rw [List.find?_isSome]
      exact ⟨z, hzs.1, hzs.2⟩
    exact Option.isSome_iff_exists.mp this
  obtain ⟨s0, hs0⟩ := hsome
  have hps0 : p s0 = true := List.find?_some hs0
  have hmem : s0 ∈ slots := List.mem_of_find?_eq_some hs0
  have hs0z : s0 = z := huniq s0 hmem hps0
  constructor
  · simp [claimSlotSeq, findAvailable, hs0]
  · have hres :
        (claimSlotSeq k slots c).1
          = saveSlotById slots s0.sid (bookSlotFields c) := by
      simp [claimSlotSeq, findAvailable, hs0]
    rw [hres, countFree, saveSlotById, List.countP_map]
    rw [List.countP_eq_zero]
    intro x hx
    by_cases hsid : (x.sid == s0.sid) = true
    · simp only [Function.comp, hsid, if_pos]
      simp [hp, slotMatches, bookSlotFields]
    · simp only [Function.comp, hsid]
      rw [if_neg (by simp_all)]
      intro hpx
      have := huniq x hx hpx
      rw [this, hs0z] at hsid
      simp at hsid

/-- With no free matching slot, every serialized claim attempt in a
sequence fails. -/
theorem claimAll_of_countFree_zero (k : SlotKey) (slots : List Slot)
    (cs : List Oid) (h : countFree k slots = 0) :
    claimAll k slots cs = (slots, cs.map (fun _ => false)) := by
  induction cs with
  | nil => simp [claimAll]
  | cons c cs ih =>
    simp only [claimAll, claimSlotSeq_of_countFree_zero k slots c h,
      List.map_cons]
    rw [ih]

end SlotClaim

/-- Looking a user up after saving a document with the same user id finds
the saved document. -/
theorem find?_updateUser (users : List User) (userId : Oid) (user u1 : User)
    (h : users.find? (fun u => u.uid == userId) = some user)
    (huid : u1.uid = user.uid) :
    (updateUser users userId u1).find? (fun u => u.uid == userId)
      = some u1 := by
  induction users with
  | nil => simp at h
  | cons y ys ih =>
    simp only [updateUser, List.map_cons]
    by_cases hy : (y.uid == userId) = true
    · have hy2 : List.find? (fun u => u.uid == userId) (y :: ys)
          = some y := List.find?_cons_of_pos ys hy
      rw [hy2] at h
      injection h with h
      subst h
      have hu1 : (u1.uid == userId) = true := by
        rw [huid]
        exact hy
      rw [if_pos hy]
      exact List.find?_cons_of_pos _ hu1
    · have hy2 : List.find? (fun u => u.uid == userId) (y :: ys)
          = List.find? (fun u => u.uid == userId) ys :=
        List.find?_cons_of_neg ys hy
      rw [hy2] at h
      rw [if_neg hy]
      exact (List.find?_cons_of_neg (updateUser ys userId u1) hy).trans
        (ih h)

/-- find? skips a prefix on which the predicate is everywhere false. -/
theorem find?_append_right (l1 l2 : List α) (p : α → Bool)
    (h : ∀ a ∈ l1, p a = false) : (l1 ++ l2).find? p = l2.find? p := by
  induction l1 with
  | nil => simp
  | cons y ys ih =>
    rw [List.cons_append, List.find?_cons_of_neg]
    · exact ih (fun a ha => h a (by simp [ha]))
    · simp [h y (by simp)]

/-- Inversion of a successful addAppointment run: the validation, user,
slot, doctor and hospital lookups all succeeded, and the result is
exactly the booked slot save plus the ledger append. -/
theorem addAppointment_ok_shape {db : DB} {userId : Oid}
    {r : AppointmentController.BookingRequest} {now : Nat} {db1 : DB}
    {appt : Appointment}
    (h : AppointmentController.addAppointment db userId r now
      = Except.ok (db1, appt)) :
    ∃ hid depId docId day time user s doctor hospital,
      AppointmentController.validateAppointmentData r
        = Except.ok (hid, depId, docId, day, time) ∧
      findUser db userId = some user ∧
      db.slots.find? (slotMatches docId hid day time) = some s ∧
      db.doctors.find? (fun d => d.did == docId) = some doctor ∧
      db.hospitals.find? (fun x => x.hid == hid) = some hospital ∧
      appt.aid = db.nextApptId ∧
      appt.status = ApptStatus.confirmed ∧
      appt.slotId = some s.sid ∧
      db1 = { db with
        slots := saveSlotById db.slots s.sid (bookSlotFields userId)
        users := updateUser db.users userId
          { user with appointments := user.appointments ++ [appt] }
        nextApptId := db.nextApptId + 1 } := by
  unfold AppointmentController.addAppointment at h
  split at h
  next e heq => exact absurd h (by simp)
  next hid depId docId day time heq =>
    split at h
    next => exact absurd h (by simp)
    next user hu =>
      split at h
      next => exact absurd h (by simp)
      next s hs =>
        split at h
        next doctor hospital hd hh =>
          rw [Except.ok.injEq, Prod.mk.injEq] at h
          obtain ⟨hdb, happ⟩ := h
          subst happ
          exact ⟨hid, depId, docId, day, time, user, s, doctor, hospital,
            heq, hu, hs, hd, hh, rfl, rfl, rfl, hdb.symm⟩
        next hne => exact absurd h (by simp)

/-- Inversion of a successful cancelAppointment run: the appointment was
found, was not already cancelled, and the result is exactly the slot
release (when a slot is referenced) plus the status overwrite. -/
theorem cancelAppointment_ok_shape {db : DB} {userId : Oid}
    {aidIn : Option Nat} {db1 : DB}
    (h : AppointmentController.cancelAppointment db userId aidIn
      = Except.ok db1) :
    ∃ aid user appointment, aidIn = some aid ∧
      findUser db userId = some user ∧
      user.appointments.find? (fun a => a.aid == aid) = some appointment ∧
      appointment.status ≠ ApptStatus.cancelled ∧
      db1 = { db with
        slots :=
          match appointment.slotId with
          | some sid => saveSlotById db.slots sid releaseSlotFields
          | none => db.slots
        users := updateUser db.users userId
          { user with appointments := user.appointments.map (fun a =>
              if a.aid == aid then { a with status := ApptStatus.cancelled }
              else a) } } := by
  unfold AppointmentController.cancelAppointment at h
  split at h
  next => exact absurd h (by simp)
  next aid =>
    split at h
    next => exact absurd h (by simp)
    next user hu =>
      split at h
      next => exact absurd h (by simp)
      next appointment ha =>
        split at h
        next => exact absurd h (by simp)
        next hnc =>
          rw [Except.ok.injEq] at h
          exact ⟨aid, user, appointment, rfl, hu, ha, hnc, h.symm⟩

/-- C1, counterexample: the claim performed by addAppointment is not an
atomic compare-and-set.  Two concurrent claim attempts on the one free
fixture slot, interleaved read-read-write-write as the await between
findOne and save permits, BOTH finish successfully, refuting that exactly
one of any number of concurrent claimants succeeds. -/
theorem claim1_interleaved_counterexample :
    (SlotClaim.runSchedule exKey [exFreeSlot]
        [{ claimant := oidB, phase := SlotClaim.ClaimPhase.start },
         { claimant := oidC, phase := SlotClaim.ClaimPhase.start }]
        [0, 1, 0, 1]).2 =
      [{ claimant := oidB, phase := SlotClaim.ClaimPhase.finished true },
       { claimant := oidC, phase := SlotClaim.ClaimPhase.finished true }] := by
  decide

/-- C1 (amended): the slot claim of addAppointment is a check-then-save
pair, not an atomic compare-and-set; when the claim attempts on a slot key
with exactly one free matching slot are serialized, so that each attempt
runs its availability check and its save to completion before the next
begins, exactly one attempt succeeds and every other fails with the slot
unavailable error.  Interleaved attempts can instead all succeed, as the
counterexample shows. -/
theorem claim1_serializedClaims (k : SlotKey) (slots : List Slot)
    (cs : List Oid) (h1 : SlotClaim.countFree k slots = 1) (h2 : cs ≠ []) :
    ((SlotClaim.claimAll k slots cs).2.count true) = 1 := by
  obtain ⟨c, cs', rfl⟩ : ∃ c cs', cs = c :: cs' := by
    cases cs with
    | nil => exact absurd rfl h2
    | cons c cs' => exact ⟨c, cs', rfl⟩
  obtain ⟨hsucc, hzero⟩ :=
    SlotClaim.claimSlotSeq_of_countFree_one k slots c h1
  simp only [SlotClaim.claimAll]
  rw [SlotClaim.claimAll_of_countFree_zero k _ cs' hzero]
  simp only [hsucc, List.count_cons]
  rw [List.count_eq_zero.mpr (by simp)]
  simp

/-- Witness for C1 (amended) at the fixture store: one free slot, two
serialized claimants, exactly one success. -/
theorem claim1_serializedClaims_witness :
    SlotClaim.countFree exKey [exFreeSlot] = 1 ∧
      ([oidB, oidC] : List Oid) ≠ [] ∧
      ((SlotClaim.claimAll exKey [exFreeSlot] [oidB, oidC]).2.count true)
        = 1 :=
  ⟨by decide, by decide,
    claim1_serializedClaims exKey [exFreeSlot] [oidB, oidC] (by decide)
      (by decide)⟩

/-- C2, counterexample: completed and cancelled are not terminal.  On the
fixture ledger, cancelAppointment turns a completed appointment into a
cancelled one and reports success, and updateAppointment turns a
cancelled appointment back into a confirmed one. -/
theorem claim2_terminal_counterexample :
    AppointmentController.cancelAppointment
        (oneUserDB [exAppt ApptStatus.completed]) oidB (some 0) =
      Except.ok { oneUserDB [exAppt ApptStatus.completed] with
        users := [{ uid := oidB,
                    appointments := [exAppt ApptStatus.cancelled] }] } ∧
    AppointmentController.updateAppointment
        (oneUserDB [exAppt ApptStatus.cancelled]) oidB (some 0)
        { status := some "confirmed", notes := none, extra := [] } =
      Except.ok ({ oneUserDB [exAppt ApptStatus.cancelled] with
        users := [{ uid := oidB,
                    appointments := [exAppt ApptStatus.confirmed] }] },
        exAppt ApptStatus.confirmed) := by
  constructor
  · rfl
  · rfl

/-- C2 (amended): the only terminality the ledger enforces is the guard of
cancelAppointment on already cancelled appointments: cancelling a
cancelled appointment fails with the already-cancelled error and mutates
nothing.  A completed appointment can still be cancelled, and
updateAppointment can move an appointment out of completed or cancelled,
as the counterexample shows. -/
theorem claim2_cancelledGuard (db : DB) (userId : Oid) (aid : Nat)
    (user : User) (appointment : Appointment)
    (hu : findUser db userId = some user)
    (ha : user.appointments.find? (fun a => a.aid == aid)
      = some appointment)
    (hc : appointment.status = ApptStatus.cancelled) :
    AppointmentController.cancelAppointment db userId (some aid) =
      Except.error AppointmentController.CancelError.alreadyCancelled := by
  simp [AppointmentController.cancelAppointment, hu, ha, hc]

/-- Witness for C2 (amended) on the fixture ledger holding one cancelled
appointment. -/
theorem claim2_cancelledGuard_witness :
    findUser (oneUserDB [exAppt ApptStatus.cancelled]) oidB =
      some { uid := oidB, appointments := [exAppt ApptStatus.cancelled] } ∧
    AppointmentController.cancelAppointment
        (oneUserDB [exAppt ApptStatus.cancelled]) oidB (some 0) =
      Except.error AppointmentController.CancelError.alreadyCancelled :=
  ⟨by decide,
    claim2_cancelledGuard (oneUserDB [exAppt ApptStatus.cancelled]) oidB 0
      { uid := oidB, appointments := [exAppt ApptStatus.cancelled] }
      (exAppt ApptStatus.cancelled) (by decide) (by decide) (by decide)⟩

/-- C3: addAppointment validates the request and loads the user; when the
referenced doctor and hospital exist and a matching free slot is found,
it books that slot, appends exactly one new confirmed appointment whose
slot reference is the claimed slot to the ledger of that patient, and
touches nothing else; when no matching free slot exists it fails with the
slot-unavailable error before any write, so no appointment record is
created and no state is mutated. -/
theorem claim3_book (db : DB) (userId : Oid)
    (r : AppointmentController.BookingRequest) (now : Nat)
    (hid depId docId : Oid) (day : Nat) (time : String) (user : User)
    (hv : AppointmentController.validateAppointmentData r =
      Except.ok (hid, depId, docId, day, time))
    (hu : findUser db userId = some user) :
    (∀ s doctor hospital,
      db.slots.find? (slotMatches docId hid day time) = some s →
      db.doctors.find? (fun d => d.did == docId) = some doctor →
      db.hospitals.find? (fun h => h.hid == hid) = some hospital →
      ∃ appt,
        AppointmentController.addAppointment db userId r now =
          Except.ok
            ({ db with
                slots := saveSlotById db.slots s.sid (bookSlotFields userId)
                users := updateUser db.users userId
                  { user with
                      appointments := user.appointments ++ [appt] }
                nextApptId := db.nextApptId + 1 }, appt) ∧
        appt.status = ApptStatus.confirmed ∧
        appt.slotId = some s.sid ∧ appt.aid = db.nextApptId) ∧
    (db.slots.find? (slotMatches docId hid day time) = none →
      AppointmentController.addAppointment db userId r now =
        Except.error AppointmentController.BookError.slotUnavailable) := by
  constructor
  · intro s doctor hospital hs hd hh
    simp only [AppointmentController.addAppointment, hv, hu, hs, hd, hh]
    exact ⟨_, rfl, rfl, rfl, rfl⟩
  · intro hnone
    simp [AppointmentController.addAppointment, hv, hu, hnone]

/-- Witness for C3 at the fixture database: the hypotheses hold and the
booking succeeds, appending the one confirmed appointment. -/
theorem claim3_book_witness :
    AppointmentController.validateAppointmentData exReq =
      Except.ok (oidA, oidC, oidD, 20000, "09:00") ∧
    findUser exBookDB oidB = some { uid := oidB, appointments := [] } ∧
    exBookDB.slots.find? (slotMatches oidD oidA 20000 "09:00") =
      some exFreeSlot ∧
    exBookDB.doctors.find? (fun d => d.did == oidD) = some exDoctor ∧
    exBookDB.hospitals.find? (fun h => h.hid == oidA) = some exHospital ∧
    ∃ appt,
      AppointmentController.addAppointment exBookDB oidB exReq 5000 =
        Except.ok
          ({ exBookDB with
              slots := saveSlotById exBookDB.slots exFreeSlot.sid
                (bookSlotFields oidB)
              users := updateUser exBookDB.users oidB
                { uid := oidB, appointments := [] ++ [appt] }
              nextApptId := exBookDB.nextApptId + 1 }, appt) ∧
      appt.status = ApptStatus.confirmed ∧
      appt.slotId = some exFreeSlot.sid ∧ appt.aid = exBookDB.nextApptId :=
  ⟨by rfl, by decide, by decide, by decide, by decide,
    (claim3_book exBookDB oidB exReq 5000 oidA oidC oidD 20000 "09:00"
        { uid := oidB, appointments := [] } (by rfl) (by decide)).1
      exFreeSlot exDoctor exHospital (by decide) (by decide) (by decide)⟩

/-- C4: slot field coherence.  Every slot produced by the seed generation
is free with no claimant; the booking claim and the cancellation release
both preserve the invariant that a slot is either free, unbooked and
unclaimed, or booked, unavailable and claimed. -/
theorem claim4_slotCoherence :
    (∀ doctor hospitalId startDay,
      ∀ s ∈ SeedData.seedSlotsForDoctor doctor hospitalId startDay,
        coherent s) ∧
    (∀ db userId r now db1 appt,
      AppointmentController.addAppointment db userId r now
        = Except.ok (db1, appt) →
      (∀ s ∈ db.slots, coherent s) → ∀ s ∈ db1.slots, coherent s) ∧
    (∀ db userId aidIn db1,
      AppointmentController.cancelAppointment db userId aidIn
        = Except.ok db1 →
      (∀ s ∈ db.slots, coherent s) → ∀ s ∈ db1.slots, coherent s) := by
  refine ⟨?_, ?_, ?_⟩
  · intro doctor hospitalId startDay s hs
    simp only [SeedData.seedSlotsForDoctor, List.mem_flatMap,
      List.mem_map] at hs
    obtain ⟨day, _, hour, _, minute, _, rfl⟩ := hs
    simp [SeedData.makeSeedSlot, coherent]
  · intro db userId r now db1 appt h hcoh s hs
    obtain ⟨hid, depId, docId, day, time, user, s0, doctor, hospital, hv,
      hu, hs0, hdoc, hhosp, haid, hst, hslot, hdb⟩ :=
      addAppointment_ok_shape h
    subst hdb
    simp only [saveSlotById, List.mem_map] at hs
    obtain ⟨x, hx, rfl⟩ := hs
    by_cases hsid : (x.sid == s0.sid) = true
    · rw [if_pos hsid]
      exact ⟨by simp [bookSlotFields], by simp [bookSlotFields]⟩
    · rw [if_neg hsid]
      exact hcoh x hx
  · intro db userId aidIn db1 h hcoh s hs
    obtain ⟨aid, user, appointment, hin, hu, ha, hnc, hdb⟩ :=
      cancelAppointment_ok_shape h
    subst hdb
    match hcase : appointment.slotId with
    | none =>
      rw [hcase] at hs
      exact hcoh s hs
    | some sid =>
      rw [hcase] at hs
      simp only [saveSlotById, List.mem_map] at hs
      obtain ⟨x, hx, rfl⟩ := hs
      by_cases hsid : (x.sid == sid) = true
      · rw [if_pos hsid]
        exact ⟨by simp [releaseSlotFields], by simp [releaseSlotFields]⟩
      · rw [if_neg hsid]
        exact hcoh x hx

/-- Witness for C4: the seed slots of the fixture doctor are coherent,
and both the fixture booking and the fixture cancellation preserve the
coherence of the fixture slot store. -/
theorem claim4_slotCoherence_witness :
    (∀ s ∈ SeedData.seedSlotsForDoctor exDoctor oidA 0, coherent s) ∧
    AppointmentController.addAppointment exBookDB oidB exReq 5000
      = Except.ok (exBookedDB, exBookedAppt) ∧
    (∀ s ∈ exBookDB.slots, coherent s) ∧
    (∀ s ∈ exBookedDB.slots, coherent s) ∧
    AppointmentController.cancelAppointment exBookedDB oidB (some 0)
      = Except.ok exCancelledDB ∧
    (∀ s ∈ exCancelledDB.slots, coherent s) :=
  ⟨claim4_slotCoherence.1 exDoctor oidA 0, by rfl, by decide,
    claim4_slotCoherence.2.1 exBookDB oidB exReq 5000 exBookedDB
      exBookedAppt (by rfl) (by decide),
    by rfl,
    claim4_slotCoherence.2.2 exBookedDB oidB (some 0) exCancelledDB
      (by rfl) (by decide)⟩

/-- The exact result of a successful cancelAppointment run, as a forward
computation rule. -/
theorem cancel_success_shape (db : DB) (userId : Oid) (user : User)
    (aid : Nat) (appointment : Appointment)
    (hu : findUser db userId = some user)
    (ha : user.appointments.find? (fun a => a.aid == aid)
      = some appointment)
    (hnc : appointment.status ≠ ApptStatus.cancelled) :
    AppointmentController.cancelAppointment db userId (some aid)
      = Except.ok { db with
          slots :=
            match appointment.slotId with
            | some sid => saveSlotById db.slots sid releaseSlotFields
            | none => db.slots
          users := updateUser db.users userId
            { user with appointments := user.appointments.map (fun a =>
                if a.aid == aid then
                  { a with status := ApptStatus.cancelled }
                else a) } } := by
  simp only [AppointmentController.cancelAppointment, hu, ha]
  rw [if_neg hnc]

/-- C7: cancelAppointment fails with the not-found error when the
appointment is absent from the ledger and with the already-cancelled
error when its status is cancelled; otherwise it succeeds, overwriting
the status to cancelled and releasing the referenced slot when one is
present; and booking followed by cancelling the created appointment
leaves the claimed slot available, unbooked and unclaimed again. -/
theorem claim7_cancel (db : DB) (userId : Oid) (user : User)
    (hu : findUser db userId = some user) :
    (∀ aid, user.appointments.find? (fun a => a.aid == aid) = none →
      AppointmentController.cancelAppointment db userId (some aid)
        = Except.error AppointmentController.CancelError.apptNotFound) ∧
    (∀ aid appointment,
      user.appointments.find? (fun a => a.aid == aid) = some appointment →
      appointment.status = ApptStatus.cancelled →
      AppointmentController.cancelAppointment db userId (some aid)
        = Except.error
            AppointmentController.CancelError.alreadyCancelled) ∧
    (∀ aid appointment,
      user.appointments.find? (fun a => a.aid == aid) = some appointment →
      appointment.status ≠ ApptStatus.cancelled →
      AppointmentController.cancelAppointment db userId (some aid)
        = Except.ok { db with
            slots :=
              match appointment.slotId with
              | some sid => saveSlotById db.slots sid releaseSlotFields
              | none => db.slots
            users := updateUser db.users userId
              { user with appointments := user.appointments.map (fun a =>
                  if a.aid == aid then
                    { a with status := ApptStatus.cancelled }
                  else a) } }) ∧
    (∀ r now db1 appt,
      AppointmentController.addAppointment db userId r now
        = Except.ok (db1, appt) →
      (∀ a ∈ user.appointments, a.aid < db.nextApptId) →
      ∃ db2,
        AppointmentController.cancelAppointment db1 userId (some appt.aid)
          = Except.ok db2 ∧
        ∀ s ∈ db2.slots, appt.slotId = some s.sid →
          s.isAvailable = true ∧ s.isBooked = false ∧ s.bookedBy = none) := by
  refine ⟨?_, ?_, ?_, ?_⟩
  · intro aid hnone
    simp [AppointmentController.cancelAppointment, hu, hnone]
  · intro aid appointment ha hc
    simp [AppointmentController.cancelAppointment, hu, ha, hc]
  · intro aid appointment ha hnc
    exact cancel_success_shape db userId user aid appointment hu ha hnc
  · intro r now db1 appt h hfresh
    obtain ⟨hid, depId, docId, day, time, user2, s0, doctor, hospital, hv,
      hu2, hs0, hdoc, hhosp, haid, hst, hslot, hdb⟩ :=
      addAppointment_ok_shape h
    rw [hu] at hu2
    injection hu2 with hu2
    subst hu2
    subst hdb
    have hu1 : findUser
        { db with
          slots := saveSlotById db.slots s0.sid (bookSlotFields userId)
          users := updateUser db.users userId
            { user with appointments := user.appointments ++ [appt] }
          nextApptId := db.nextApptId + 1 } userId
        = some { user with appointments := user.appointments ++ [appt] } :=
      find?_updateUser db.users userId user _ hu rfl
    have hfind : (user.appointments ++ [appt]).find?
        (fun a => a.aid == appt.aid) = some appt := by
      rw [find?_append_right]
      · exact List.find?_cons_of_pos _ (by simp)
      · intro a ha2
        have hlt := hfresh a ha2
        rw [← haid] at hlt
        simp [Nat.ne_of_lt hlt]
    have hc := cancel_success_shape _ userId _ appt.aid appt hu1 hfind
      (by rw [hst]; intro hcontra; cases hcontra)
    refine ⟨_, hc, ?_⟩
    · intro s hs hsid
      rw [hslot] at hsid
      injection hsid with hsid
      rw [hslot] at hs
      simp only [saveSlotById, List.mem_map] at hs
      obtain ⟨x, hx, rfl⟩ := hs
      by_cases hx2 : (x.sid == s0.sid) = true
      · rw [if_pos hx2] at hsid ⊢
        exact ⟨rfl, rfl, rfl⟩
      · rw [if_neg hx2] at hsid
        exact absurd (by simp [hsid]) hx2

/-- Witness for C7: the fixture booking followed by cancelling the
created appointment frees the fixture slot. -/
theorem claim7_cancel_witness :
    findUser exBookDB oidB = some { uid := oidB, appointments := [] } ∧
    AppointmentController.addAppointment exBookDB oidB exReq 5000
      = Except.ok (exBookedDB, exBookedAppt) ∧
    (∀ a ∈ ({ uid := oidB, appointments := [] } : User).appointments,
      a.aid < exBookDB.nextApptId) ∧
    ∃ db2,
      AppointmentController.cancelAppointment exBookedDB oidB
          (some exBookedAppt.aid) = Except.ok db2 ∧
      ∀ s ∈ db2.slots, exBookedAppt.slotId = some s.sid →
        s.isAvailable = true ∧ s.isBooked = false ∧ s.bookedBy = none :=
  ⟨by decide, by rfl, by decide,
    (claim7_cancel exBookDB oidB { uid := oidB, appointments := [] }
        (by decide)).2.2.2 exReq 5000 exBookedDB exBookedAppt (by rfl)
      (by decide)⟩

/-- The ledger rewritten by one sweep pass satisfies the per-appointment
sweep contract position by position. -/
theorem sweepAppointments_spec (rand : Rand) (now : Nat) (userId : Oid) :
    ∀ (appts : List Appointment) (db : DB),
      List.Forall₂ apptSweepSpec appts
        (AppointmentService.sweepAppointments rand now userId db
          appts).2.1 := by
  intro appts
  induction appts with
  | nil =>
    intro db
    constructor
  | cons a rest ih =>
    intro db
    by_cases hc : a.status = ApptStatus.confirmed
    · simp only [AppointmentService.sweepAppointments, if_pos hc]
      cases hgen : AppointmentService.generatePrescription rand now db
          { a with status := ApptStatus.completed } userId with
      | ok res =>
        obtain ⟨db2, prescription⟩ := res
        simp only [hgen]
        refine List.Forall₂.cons ?_ (ih _)
        simp [apptSweepSpec, hc]
      | error e =>
        simp only [hgen]
        refine List.Forall₂.cons ?_ (ih _)
        simp [apptSweepSpec, hc]
    · simp only [AppointmentService.sweepAppointments, if_neg hc]
      refine List.Forall₂.cons ?_ (ih db)
      simp only [apptSweepSpec, if_neg hc]

/-- No appointment emerges from a sweep pass still confirmed. -/
theorem sweepAppointments_not_confirmed (rand : Rand) (now : Nat)
    (userId : Oid) :
    ∀ (appts : List Appointment) (db : DB),
      ∀ a ∈ (AppointmentService.sweepAppointments rand now userId db
          appts).2.1, a.status ≠ ApptStatus.confirmed := by
  intro appts
  induction appts with
  | nil =>
    intro db a ha
    simp [AppointmentService.sweepAppointments] at ha
  | cons x rest ih =>
    intro db a ha
    by_cases hc : x.status = ApptStatus.confirmed
    · simp only [AppointmentService.sweepAppointments, if_pos hc] at ha
      cases hgen : AppointmentService.generatePrescription rand now db
          { x with status := ApptStatus.completed } userId with
      | ok res =>
        obtain ⟨db2, prescription⟩ := res
        rw [hgen] at ha
        simp only [List.mem_cons] at ha
        cases ha with
        | inl h2 =>
          subst h2
          intro hcontra
          cases hcontra
        | inr h2 => exact ih _ a h2
      | error e =>
        rw [hgen] at ha
        simp only [List.mem_cons] at ha
        cases ha with
        | inl h2 =>
          subst h2
          intro hcontra
          cases hcontra
        | inr h2 => exact ih _ a h2
    · simp only [AppointmentService.sweepAppointments, if_neg hc] at ha
      simp only [List.mem_cons] at ha
      cases ha with
      | inl h2 =>
        subst h2
        exact hc
      | inr h2 => exact ih _ a h2

/-- A user with no confirmed appointment has every appointment in a
status other than confirmed. -/
theorem hasConfirmed_false {u : User}
    (hc : ¬AppointmentService.hasConfirmed u = true) :
    ∀ a ∈ u.appointments, a.status ≠ ApptStatus.confirmed := by
  intro a ha
  simp only [AppointmentService.hasConfirmed, List.any_eq_true,
    not_exists, not_and] at hc
  have := hc a ha
  simpa using this

/-- The user list produced by the sweep outer loop satisfies the sweep
contract user by user. -/
theorem runSweep_spec (rand : Rand) (now : Nat) :
    ∀ (users : List User) (db : DB),
      List.Forall₂ (fun u u1 => u1.uid = u.uid ∧
          List.Forall₂ apptSweepSpec u.appointments u1.appointments)
        users (AppointmentService.runSweep rand now users db).1 := by
  intro users
  induction users with
  | nil =>
    intro db
    constructor
  | cons u rest ih =>
    intro db
    by_cases hc : AppointmentService.hasConfirmed u = true
    · simp only [AppointmentService.runSweep, if_pos hc]
      exact List.Forall₂.cons
        ⟨rfl, sweepAppointments_spec rand now u.uid u.appointments db⟩
        (ih _)
    · simp only [AppointmentService.runSweep, if_neg hc]
      refine List.Forall₂.cons ⟨rfl, ?_⟩ (ih db)
      rw [List.forall₂_same]
      intro a ha
      simp only [apptSweepSpec, if_neg (hasConfirmed_false hc a ha)]

/-- After the sweep outer loop no user holds a confirmed appointment. -/
theorem runSweep_not_confirmed (rand : Rand) (now : Nat) :
    ∀ (users : List User) (db : DB),
      ∀ u1 ∈ (AppointmentService.runSweep rand now users db).1,
        ∀ a ∈ u1.appointments, a.status ≠ ApptStatus.confirmed := by
  intro users
  induction users with
  | nil =>
    intro db u1 hu1
    simp [AppointmentService.runSweep] at hu1
  | cons u rest ih =>
    intro db u1 hu1 a ha
    by_cases hc : AppointmentService.hasConfirmed u = true
    · simp only [AppointmentService.runSweep, if_pos hc,
        List.mem_cons] at hu1
      cases hu1 with
      | inl h2 =>
        subst h2
        exact sweepAppointments_not_confirmed rand now u.uid
          u.appointments db a ha
      | inr h2 => exact ih _ u1 h2 a ha
    · simp only [AppointmentService.runSweep, if_neg hc,
        List.mem_cons] at hu1
      cases hu1 with
      | inl h2 =>
        subst h2
        exact hasConfirmed_false hc a ha
      | inr h2 => exact ih _ u1 h2 a ha

/-- C5: one sweep run turns every confirmed appointment of every patient
into a completed one, attaching a prescription reference or leaving the
old one untouched when generation fails, leaves every other appointment
unchanged, and leaves no appointment in status confirmed. -/
theorem claim5_sweep (rand : Rand) (now : Nat) (db : DB) :
    List.Forall₂ (fun u u1 => u1.uid = u.uid ∧
        List.Forall₂ apptSweepSpec u.appointments u1.appointments)
      db.users
      (AppointmentService.expireAppointments rand now db).1.users ∧
    ∀ u1 ∈ (AppointmentService.expireAppointments rand now db).1.users,
      ∀ a ∈ u1.appointments, a.status ≠ ApptStatus.confirmed := by
  constructor
  · simpa [AppointmentService.expireAppointments] using
      runSweep_spec rand now db.users db
  · intro u1 hu1 a ha
    have hu2 : u1 ∈ (AppointmentService.runSweep rand now db.users db).1 := by
      simpa [AppointmentService.expireAppointments] using hu1
    exact runSweep_not_confirmed rand now db.users db u1 hu2 a ha

/-- C6: prescription generation is exactly once per appointment.  After
any successful service generation for an appointment, generating again
for the same appointment returns the very same prescription and database,
the number of prescriptions stored for that appointment is the old number
or exactly one, and the manual endpoint refuses with the already-exists
error. -/
theorem claim6_prescriptionOnce (rand1 rand2 : Rand) (now1 now2 : Nat)
    (db : DB) (appointment : Appointment) (userId : Oid) (db1 : DB)
    (p1 : Prescription)
    (h : AppointmentService.generatePrescription rand1 now1 db appointment
      userId = Except.ok (db1, p1)) :
    AppointmentService.generatePrescription rand2 now2 db1 appointment
        userId = Except.ok (db1, p1) ∧
    (db1.prescriptions.countP (fun p => p.appointmentId == appointment.aid)
        = db.prescriptions.countP
            (fun p => p.appointmentId == appointment.aid) ∨
      (db.prescriptions.countP
          (fun p => p.appointmentId == appointment.aid) = 0 ∧
        db1.prescriptions.countP
          (fun p => p.appointmentId == appointment.aid) = 1)) ∧
    (∀ rand3 now3 userId2 user a,
      findUser db1 userId2 = some user →
      user.appointments.find? (fun x => x.aid == appointment.aid)
        = some a →
      (a.status = ApptStatus.confirmed ∨ a.status = ApptStatus.completed) →
      PrescriptionController.generatePrescriptionForAppointment rand3 now3
          db1 userId2 (some appointment.aid)
        = Except.error
            PrescriptionController.ManualGenError.alreadyExists) := by
  simp only [AppointmentService.generatePrescription] at h
  split at h
  next existing hfound =>
    rw [Except.ok.injEq, Prod.mk.injEq] at h
    obtain ⟨hdb, hp⟩ := h
    subst hdb
    subst hp
    refine ⟨?_, Or.inl rfl, ?_⟩
    · simp only [AppointmentService.generatePrescription, hfound]
    · intro rand3 now3 userId2 user a hu ha heli
      simp only [PrescriptionController.generatePrescriptionForAppointment,
        hu, ha]
      rw [if_neg (by rcases heli with h2 | h2 <;> simp [h2])]
      rw [hfound]
  next hnone =>
    split at h
    next hemp => exact absurd h (by simp)
    next hemp =>
      rw [Except.ok.injEq, Prod.mk.injEq] at h
      obtain ⟨hdb, hp⟩ := h
      have hzero : ∀ p ∈ db.prescriptions,
          (fun p => p.appointmentId == appointment.aid) p = false := by
        intro p hp2
        have := List.find?_eq_none.mp hnone p hp2
        simpa using this
      have hpres : db1.prescriptions = db.prescriptions ++ [p1] := by
        rw [← hdb, ← hp]
      have hp1aid : (p1.appointmentId == appointment.aid) = true := by
        rw [← hp]
        simp
      have hfind1 : db1.prescriptions.find?
          (fun p => p.appointmentId == appointment.aid) = some p1 := by
        rw [hpres, find?_append_right _ _ _ hzero]
        exact List.find?_cons_of_pos _ hp1aid
      refine ⟨?_, Or.inr ⟨?_, ?_⟩, ?_⟩
      · simp only [AppointmentService.generatePrescription, hfind1]
      · rw [List.countP_eq_zero]
        intro p hp2
        simp [hzero p hp2]
      · have hcl : db.prescriptions.countP
            (fun p => p.appointmentId == appointment.aid) = 0 := by
          rw [List.countP_eq_zero]
          intro p hp2
          simp [hzero p hp2]
        rw [hpres, List.countP_append, hcl, List.countP_cons]
        simp [hp1aid]
      · intro rand3 now3 userId2 user a hu ha heli
        simp only
          [PrescriptionController.generatePrescriptionForAppointment,
            hu, ha]
        rw [if_neg (by rcases heli with h2 | h2 <;> simp [h2])]
        rw [hfind1]

/-- Witness for C6: the fixture generation succeeds once, the repeat call
returns the same prescription without inserting, the store holds exactly
one prescription for the appointment, and the manual endpoint refuses. -/
theorem claim6_prescriptionOnce_witness :
    AppointmentService.generatePrescription rand0 100 c6db
        (exAppt ApptStatus.completed) oidB = Except.ok (c6db1, c6p) ∧
    (AppointmentService.generatePrescription rand0 200 c6db1
        (exAppt ApptStatus.completed) oidB = Except.ok (c6db1, c6p) ∧
      (c6db1.prescriptions.countP
          (fun p => p.appointmentId == (exAppt ApptStatus.completed).aid)
          = c6db.prescriptions.countP
              (fun p =>
                p.appointmentId == (exAppt ApptStatus.completed).aid) ∨
        (c6db.prescriptions.countP
            (fun p => p.appointmentId == (exAppt ApptStatus.completed).aid)
            = 0 ∧
          c6db1.prescriptions.countP
            (fun p => p.appointmentId == (exAppt ApptStatus.completed).aid)
            = 1)) ∧
      (∀ rand3 now3 userId2 user a,
        findUser c6db1 userId2 = some user →
        user.appointments.find?
            (fun x => x.aid == (exAppt ApptStatus.completed).aid)
          = some a →
        (a.status = ApptStatus.confirmed ∨
          a.status = ApptStatus.completed) →
        PrescriptionController.generatePrescriptionForAppointment rand3
            now3 c6db1 userId2 (some (exAppt ApptStatus.completed).aid)
          = Except.error
              PrescriptionController.ManualGenError.alreadyExists)) :=
  ⟨by rfl,
    claim6_prescriptionOnce rand0 rand0 100 200 c6db
      (exAppt ApptStatus.completed) oidB c6db1 c6p (by rfl)⟩

/-- When no user save fails, the fallible sweep loop agrees with the
plain one. -/
theorem runSweepFallible_noFail (rand : Rand) (now : Nat)
    (saveFails : Oid → Bool) :
    ∀ (users : List User) (db : DB),
      (∀ u ∈ users, saveFails u.uid = false) →
      AppointmentService.runSweepFallible rand now saveFails users db
        = Except.ok (AppointmentService.runSweep rand now users db) := by
  intro users
  induction users with
  | nil =>
    intro db h
    rfl
  | cons u rest ih =>
    intro db h
    have hsf : saveFails u.uid = false := h u (by simp)
    have hrest : ∀ a ∈ rest, saveFails a.uid = false :=
      fun a ha => h a (by simp [ha])
    by_cases hc : AppointmentService.hasConfirmed u = true
    · simp [AppointmentService.runSweepFallible,
        AppointmentService.runSweep, if_pos hc, hsf, ih _ hrest]
    · simp [AppointmentService.runSweepFallible,
        AppointmentService.runSweep, if_neg hc, ih _ hrest]

/-- C8, counterexample: a storage failure saving the first patient aborts
the whole sweep.  On the two-patient fixture the sweep rethrows with the
database unchanged, although the second patient still holds a confirmed
appointment that was never processed. -/
theorem claim8_abort_counterexample :
    AppointmentService.expireAppointmentsFallible rand0 100
        (fun u => u == oidB) c8db = Except.error c8db ∧
    AppointmentService.hasConfirmed
      { uid := oidC,
        appointments := [{ exAppt ApptStatus.confirmed with aid := 1 }] }
      = true := by
  exact ⟨rfl, rfl⟩

/-- C8 (amended): a prescription-generation failure never aborts the
sweep: when no user save fails the fallible sweep completes and agrees
with the plain sweep, whatever the medicine catalog; but a storage
failure saving one patient ledger propagates out of the loop and the
remaining patients are not processed, as the counterexample shows. -/
theorem claim8_perPatientIsolation (rand : Rand) (now : Nat)
    (saveFails : Oid → Bool) (db : DB)
    (h : ∀ u ∈ db.users, saveFails u.uid = false) :
    AppointmentService.expireAppointmentsFallible rand now saveFails db
      = Except.ok (AppointmentService.expireAppointments rand now db) := by
  rcases hr : AppointmentService.runSweep rand now db.users db with
    ⟨us, db2, c⟩
  simp only [AppointmentService.expireAppointmentsFallible,
    AppointmentService.expireAppointments,
    runSweepFallible_noFail rand now saveFails db.users db h, hr]

/-- Witness for C8 (amended) on the two-patient fixture with no failing
save. -/
theorem claim8_perPatientIsolation_witness :
    (∀ u ∈ c8db.users, (fun _ => false : Oid → Bool) u.uid = false) ∧
    AppointmentService.expireAppointmentsFallible rand0 100
        (fun _ => false) c8db
      = Except.ok (AppointmentService.expireAppointments rand0 100 c8db) :=
  ⟨by decide,
    claim8_perPatientIsolation rand0 100 (fun _ => false) c8db
      (by decide)⟩

/-- The entry generateFollowUpDate selects is always one of the five
offsets. -/
theorem followUpDays_getD_mem (i : Nat) :
    PrescriptionController.followUpDays.getD
        (i % PrescriptionController.followUpDays.length) 0
      ∈ PrescriptionController.followUpDays := by
  have hlen : PrescriptionController.followUpDays.length = 5 := rfl
  rw [hlen]
  have h5 : i % 5 = 0 ∨ i % 5 = 1 ∨ i % 5 = 2 ∨ i % 5 = 3 ∨ i % 5 = 4 := by
    omega
  rcases h5 with h | h | h | h | h <;> rw [h] <;> decide

/-- C9, counterexample: the sweep-side prescription generator ignores the
random follow-up draw and always writes a follow-up of exactly seven days
from now.  Under a random source whose follow-up roll selects the offset
14, the generated prescription still carries now plus 7 days, so its
follow-up date is not the generation time plus the randomly chosen
offset. -/
theorem claim9_fixedFollowUp_counterexample :
    AppointmentService.generatePrescription
        { rand0 with followUpRoll := 1 } 100 c6db
        (exAppt ApptStatus.completed) oidB = Except.ok (c6db1, c6p) ∧
    c6p.followUpDate = 100 + 7 * msPerDay ∧
    PrescriptionController.followUpDays.getD
        (1 % PrescriptionController.followUpDays.length) 0 = 14 ∧
    (100 : Nat) + 7 * msPerDay ≠ 100 + 14 * msPerDay := by
  exact ⟨by rfl, by decide, by decide, by decide⟩

/-- C9 (amended): a prescription created by the manual endpoint carries a
follow-up date equal to now plus an offset drawn from the set
7, 14, 30, 60, 90 days; a prescription created by the sweep-side service
generator always carries a follow-up date of exactly now plus 7 days,
whatever the random source. -/
theorem claim9_followUp (rand : Rand) (now : Nat) (db : DB)
    (userId : Oid) (aidIn : Option Nat) (appointment : Appointment)
    (db2 : DB) (p : Prescription) :
    (PrescriptionController.generatePrescriptionForAppointment rand now db
        userId aidIn = Except.ok (db2, p) →
      ∃ d ∈ PrescriptionController.followUpDays,
        p.followUpDate = now + d * msPerDay) ∧
    (db.prescriptions.find?
        (fun q => q.appointmentId == appointment.aid) = none →
      AppointmentService.generatePrescription rand now db appointment
        userId = Except.ok (db2, p) →
      p.followUpDate = now + 7 * msPerDay) := by
  constructor
  · intro h
    simp only
      [PrescriptionController.generatePrescriptionForAppointment] at h
    split at h
    next => exact absurd h (by simp)
    next aid =>
      split at h
      next => exact absurd h (by simp)
      next user hu =>
        split at h
        next => exact absurd h (by simp)
        next a ha =>
          split at h
          next => exact absurd h (by simp)
          next heli =>
            split at h
            next => exact absurd h (by simp)
            next hnone =>
              split at h
              next => exact absurd h (by simp)
              next hemp =>
                rw [Except.ok.injEq, Prod.mk.injEq] at h
                obtain ⟨hdb, hp⟩ := h
                have hfu : p.followUpDate =
                    PrescriptionController.generateFollowUpDate now
                      rand.followUpRoll := by
                  rw [← hp]
                refine ⟨PrescriptionController.followUpDays.getD
                    (rand.followUpRoll %
                      PrescriptionController.followUpDays.length) 0,
                  followUpDays_getD_mem rand.followUpRoll, ?_⟩
                rw [hfu]
                rfl
  · intro hnone h
    simp only [AppointmentService.generatePrescription, hnone] at h
    split at h
    next => exact absurd h (by simp)
    next hemp =>
      rw [Except.ok.injEq, Prod.mk.injEq] at h
      obtain ⟨hdb, hp⟩ := h
      have hfu : p.followUpDate = now + 7 * 24 * 60 * 60 * 1000 := by
        rw [← hp]
      rw [hfu]
      norm_num [msPerDay]

/-- Witness for C9 (amended): the manual fixture generation carries an
offset from the set, the sweep-side fixture generation carries exactly
seven days. -/
theorem claim9_followUp_witness :
    PrescriptionController.generatePrescriptionForAppointment rand0 100
        c6db oidB (some 0) = Except.ok (c9db2, c9p) ∧
    (∃ d ∈ PrescriptionController.followUpDays,
      c9p.followUpDate = 100 + d * msPerDay) ∧
    c6db.prescriptions.find?
        (fun q => q.appointmentId == (exAppt ApptStatus.completed).aid)
      = none ∧
    AppointmentService.generatePrescription rand0 100 c6db
        (exAppt ApptStatus.completed) oidB = Except.ok (c6db1, c6p) ∧
    c6p.followUpDate = 100 + 7 * msPerDay :=
  ⟨by rfl,
    (claim9_followUp rand0 100 c6db oidB (some 0)
        (exAppt ApptStatus.completed) c9db2 c9p).1 (by rfl),
    by rfl, by rfl,
    (claim9_followUp rand0 100 c6db oidB (some 0)
        (exAppt ApptStatus.completed) c6db1 c6p).2 (by rfl) (by rfl)⟩

/-- Witness for C5: the sweep contract instantiated at the two-patient
fixture database. -/
theorem claim5_sweep_witness :
    List.Forall₂ (fun u u1 => u1.uid = u.uid ∧
        List.Forall₂ apptSweepSpec u.appointments u1.appointments)
      c8db.users
      (AppointmentService.expireAppointments rand0 100 c8db).1.users ∧
    ∀ u1 ∈ (AppointmentService.expireAppointments rand0 100 c8db).1.users,
      ∀ a ∈ u1.appointments, a.status ≠ ApptStatus.confirmed :=
  claim5_sweep rand0 100 c8db

/-- C10: updateAppointment changes at most the status and notes fields of
the targeted appointment.  Keys outside status and notes never influence
the outcome; a request carrying neither field fails with the
no-valid-fields error before any lookup; on success the result database
is the input database with only the matching appointment of the matching
user replaced, the replacement differing from the original in at most
status and notes; and a status string outside the schema enum makes the
save fail with nothing persisted. -/
theorem claim10_updateFrame (db : DB) (userId : Oid) (aid : Nat)
    (r : AppointmentController.UpdateRequest) (user : User)
    (appointment : Appointment)
    (hu : findUser db userId = some user)
    (ha : user.appointments.find? (fun a => a.aid == aid)
      = some appointment) :
    (∀ e2, AppointmentController.updateAppointment db userId (some aid) r
      = AppointmentController.updateAppointment db userId (some aid)
          { status := r.status, notes := r.notes, extra := e2 }) ∧
    (r.status = none → r.notes = none →
      AppointmentController.updateAppointment db userId (some aid) r
        = Except.error AppointmentController.UpdateError.noValidFields) ∧
    (∀ nts, r.status = none → r.notes = some nts →
      AppointmentController.updateAppointment db userId (some aid) r
        = Except.ok (updateResult db userId aid user
            { appointment with notes := nts })) ∧
    (∀ s st, r.status = some s → statusOfString s = some st →
      AppointmentController.updateAppointment db userId (some aid) r
        = Except.ok (updateResult db userId aid user
            { appointment with
                status := st
                notes := r.notes.getD appointment.notes })) ∧
    (∀ s, r.status = some s → statusOfString s = none →
      AppointmentController.updateAppointment db userId (some aid) r
        = Except.error AppointmentController.UpdateError.invalidStatus) := by
  refine ⟨?_, ?_, ?_, ?_, ?_⟩
  · intro e2
    cases r
    rfl
  · intro h1 h2
    simp [AppointmentController.updateAppointment, h1, h2]
  · intro nts h1 h2
    simp [AppointmentController.updateAppointment, updateResult, h1, h2,
      hu, ha]
  · intro s st h1 h2
    simp [AppointmentController.updateAppointment, updateResult, h1, h2,
      hu, ha]
  · intro s h1 h2
    simp [AppointmentController.updateAppointment, h1, h2, hu, ha]

/-- Witness for C10: updating status and notes of the fixture confirmed
appointment while supplying a stray key succeeds and rewrites only that
appointment. -/
theorem claim10_updateFrame_witness :
    findUser (oneUserDB [exAppt ApptStatus.confirmed]) oidB
      = some { uid := oidB,
               appointments := [exAppt ApptStatus.confirmed] } ∧
    ({ uid := oidB, appointments := [exAppt ApptStatus.confirmed] }
        : User).appointments.find? (fun a => a.aid == 0)
      = some (exAppt ApptStatus.confirmed) ∧
    statusOfString "completed" = some ApptStatus.completed ∧
    AppointmentController.updateAppointment
        (oneUserDB [exAppt ApptStatus.confirmed]) oidB (some 0)
        { status := some "completed", notes := some "ok",
          extra := [("stray", "ignored")] }
      = Except.ok (updateResult (oneUserDB [exAppt ApptStatus.confirmed])
          oidB 0
          { uid := oidB, appointments := [exAppt ApptStatus.confirmed] }
          { exAppt ApptStatus.confirmed with
              status := ApptStatus.completed
              notes := (some "ok").getD
                (exAppt ApptStatus.confirmed).notes }) :=
  ⟨by decide, by decide, by decide,
    (claim10_updateFrame (oneUserDB [exAppt ApptStatus.confirmed]) oidB 0
        { status := some "completed", notes := some "ok",
          extra := [("stray", "ignored")] }
        { uid := oidB, appointments := [exAppt ApptStatus.confirmed] }
        (exAppt ApptStatus.confirmed) (by decide)
        (by decide)).2.2.2.1 "completed" ApptStatus.completed (by rfl)
      (by rfl)⟩

end HMS
